import Mathlib

/-!
# Verification of the toy-iris-angular-ui upload/polling engine

Shallow embedding of the presentation-tier services of the
`toy-iris-angular-ui` repository, translated from:

* `src/app/shared/services/upload.service.ts` (classes `UploadService`
  and `AlgorithmService`),
* `src/app/features/upload/upload.component.ts` (`UploadComponent`),
* `src/app/shared/services/algorithm-parameters.service.ts`,
* `src/app/shared/services/reports.service.ts` (`ReportsService`),
* the task, dashboard, sidebar and theme services.

HTTP calls are modelled by passing the call's outcome in as a value
(`Except` of an error and the parsed payload).  The recursive
`setTimeout`-driven polling loops are modelled as total recursive
functions over a stream `resp : Nat -> StatusResult` giving the outcome
of the status request issued at each poll count; the recursion is bounded
by the source's own poll ceiling (`maxPolls`), which is what makes the
loop total.  Fields of TypeScript interfaces that no embedded function
ever reads (`startTime`, `createdDate`, ...) are omitted from the
structures.
-/

namespace ToyIris

/-- JavaScript `a || b` for an optional string: `undefined` and the empty
string (both falsy) select the fallback. -/
def jsOrString (v : Option String) (d : String) : String :=
  match v with
  | none => d
  | some s => if s = "" then d else s

/-- JavaScript `s.includes(pat)` for a non-empty pattern. -/
def jsIncludes (s pat : String) : Bool :=
  decide ((s.splitOn pat).length ≥ 2)

/-- `Task` from `upload.service.ts`.  `progressPercentage` is a JS
number (`Option Int`: absent or an integer percentage); fields never read
by the embedded code are omitted. -/
structure Task where
  id : Nat
  taskType : String
  status : String
  errorMessage : Option String
  progressMessage : Option String
  progressPercentage : Option Int
  deriving Repr, DecidableEq

/-- Outcome of one `getTaskStatus` HTTP request: the error callback or a
parsed `Task`. -/
inductive StatusResult where
  | err : StatusResult
  | ok : Task → StatusResult
  deriving Repr, DecidableEq

/-- Payload of `observer.next` in `pollUploadTaskStatus`:
`{ progress, task?, completed? }` (absent `completed` is falsy). -/
structure UploadProgressEvent where
  progress : Int
  task : Option Task := none
  completed : Bool := false
  deriving Repr, DecidableEq

/-- Payload of `observer.next` in `pollTaskStatus` (download flow):
`{ progress, blob?, filename? }`.  Blobs are identified by a `Nat`. -/
structure DownloadProgressEvent where
  progress : Int
  blob : Option Nat := none
  filename : Option String := none
  deriving Repr, DecidableEq

/-- A JavaScript `Error` as passed to `observer.error`: its message, plus
the `task` property that `pollUploadTaskStatus` attaches on FAILED. -/
structure JsError where
  message : String
  task : Option Task := none
  deriving Repr, DecidableEq

/-- How the observable sequence ends: `observer.complete()` or
`observer.error e`. -/
inductive Termination where
  | complete : Termination
  | error : JsError → Termination
  deriving Repr, DecidableEq

/-- Trace of one polling run: the events delivered to the observer
(tagged with the poll count at which they were emitted), the poll counts
at which a `getTaskStatus` request was issued, the poll counts at which a
`downloadTaskResult` request was issued, the poll counts at which a
`cancelTask` request was issued (the loops never issue one), the
`setTimeout` delays (ms) scheduled, how the sequence terminated, and the
poll count at which it terminated. -/
structure PollRun (E : Type) where
  events : List (Nat × E)
  statusRequests : List Nat
  resultRequests : List Nat := []
  cancelRequests : List Nat := []
  delays : List Nat := []
  term : Termination
  termIdx : Nat
  deriving Repr, DecidableEq

/-- `UploadService.pollUploadTaskStatus` (upload.service.ts lines
159-199).  `const maxPolls = 240`; the recursion re-schedules itself via
`setTimeout(..., 2000)` with `pollCount + 1` both after a PENDING/RUNNING
poll and after a failed status request.  The unused `fileType` parameter
of the source is dropped. -/
def pollUploadTaskStatus (resp : Nat → StatusResult) (pollCount : Nat) :
    PollRun UploadProgressEvent :=
  if _h : pollCount ≥ 240 then
    { events := [], statusRequests := [],
      term := .error { message := "Upload timeout - task is taking too long" },
      termIdx := pollCount }
  else
    match resp pollCount with
    | .ok task =>
      if task.status = "COMPLETED" then
        { events := [(pollCount, { progress := 100, task := some task, completed := true })],
          statusRequests := [pollCount], term := .complete, termIdx := pollCount }
      else if task.status = "FAILED" then
        { events := [], statusRequests := [pollCount],
          term := .error { message := jsOrString task.errorMessage ("Upload failed"),
                           task := some task },
          termIdx := pollCount }
      else if task.status = "CANCELLED" then
        { events := [], statusRequests := [pollCount],
          term := .error { message := "Upload was cancelled" }, termIdx := pollCount }
      else if task.status = "PENDING" ∨ task.status = "RUNNING" then
        let rest := pollUploadTaskStatus resp (pollCount + 1)
        { rest with
          events := (pollCount,
            { progress := (task.progressPercentage.getD 0),
              task := some task }) :: rest.events,
          statusRequests := pollCount :: rest.statusRequests,
          delays := 2000 :: rest.delays }
      else
        { events := [], statusRequests := [pollCount],
          term := .error { message := "Unknown task status: " ++ task.status },
          termIdx := pollCount }
    | .err =>
      let rest := pollUploadTaskStatus resp (pollCount + 1)
      { rest with
        statusRequests := pollCount :: rest.statusRequests,
        delays := 2000 :: rest.delays }
termination_by 240 - pollCount
decreasing_by all_goals omega

/-- The inner `downloadTaskResult(taskId).subscribe` of
`UploadService.pollTaskStatus`: on COMPLETED the loop issues one
`downloadTaskResult` request whose outcome `dl` either completes the
sequence with the blob or fails it with the request's error message. -/
def downloadResultStep (dl : Except String Nat) (fileType : String)
    (pollCount : Nat) : PollRun DownloadProgressEvent :=
  match dl with
  | .ok blob =>
    { events := [(pollCount,
        { progress := 100, blob := some blob,
          filename := some (fileType ++ "_data.tsv") })],
      statusRequests := [pollCount], resultRequests := [pollCount],
      term := .complete, termIdx := pollCount }
  | .error msg =>
    { events := [], statusRequests := [pollCount], resultRequests := [pollCount],
      term := .error { message := msg }, termIdx := pollCount }

/-- `UploadService.pollTaskStatus` (download flow, upload.service.ts
lines 268-314).  `const maxPolls = 120`, cadence 5000 ms; on its FAILED
branch no task is attached to the error. -/
def pollTaskStatus (resp : Nat → StatusResult) (dl : Except String Nat)
    (fileType : String) (pollCount : Nat) : PollRun DownloadProgressEvent :=
  if _h : pollCount ≥ 120 then
    { events := [], statusRequests := [],
      term := .error { message := "Download timeout - task is taking too long" },
      termIdx := pollCount }
  else
    match resp pollCount with
    | .ok task =>
      if task.status = "COMPLETED" then
        downloadResultStep dl fileType pollCount
      else if task.status = "FAILED" then
        { events := [], statusRequests := [pollCount],
          term := .error { message := jsOrString task.errorMessage ("Download failed") },
          termIdx := pollCount }
      else if task.status = "CANCELLED" then
        { events := [], statusRequests := [pollCount],
          term := .error { message := "Download was cancelled" }, termIdx := pollCount }
      else if task.status = "PENDING" ∨ task.status = "RUNNING" then
        let rest := pollTaskStatus resp dl fileType (pollCount + 1)
        { rest with
          events := (pollCount,
            { progress := (task.progressPercentage.getD 0) }) :: rest.events,
          statusRequests := pollCount :: rest.statusRequests,
          delays := 5000 :: rest.delays }
      else
        { events := [], statusRequests := [pollCount],
          term := .error { message := "Unknown task status: " ++ task.status },
          termIdx := pollCount }
    | .err =>
      let rest := pollTaskStatus resp dl fileType (pollCount + 1)
      { rest with
        statusRequests := pollCount :: rest.statusRequests,
        delays := 5000 :: rest.delays }
termination_by 120 - pollCount
decreasing_by all_goals omega

/-- A status sequence that never reaches a terminal status: every
successful poll reports PENDING or RUNNING (failed status requests are
also allowed, as the loop retries them). -/
def nonTerminal (resp : Nat → StatusResult) : Prop :=
  ∀ n t, resp n = .ok t → t.status = "PENDING" ∨ t.status = "RUNNING"

/-- Events actually delivered to a subscriber that unsubscribed at poll
count `closedAt`: `new Observable(observer => ...)` in `uploadFileAsync`
and `downloadDataFileAsync` returns no teardown, so unsubscribing only
marks the subscriber closed; `observer.next` after that point is a
no-op, while the `setTimeout` chain and its HTTP requests continue. -/
def deliveredEvents {E : Type} (run : PollRun E) (closedAt : Nat) : List (Nat × E) :=
  run.events.filter (fun pe => decide (pe.1 < closedAt))

/-- Status requests issued at poll count `i` or later (i.e. after a
subscriber that unsubscribed at poll count `i`). -/
def statusRequestsOnOrAfter {E : Type} (run : PollRun E) (i : Nat) : List Nat :=
  run.statusRequests.filter (fun r => decide (i ≤ r))

/-- A browser `File`: the fields the code reads are `name` and `size`
(bytes). -/
structure File where
  name : String
  size : Nat
  deriving Repr, DecidableEq

/-- Suffix of a character list starting at its last `.` character; the
whole list when it has no dot.  This is
`name.substring(name.lastIndexOf('.'))` including JavaScript's clamping
of the `-1` returned when there is no dot. -/
def suffixFromLastDot : List Char → List Char
  | [] => []
  | c :: cs => if cs.contains '.' then suffixFromLastDot cs else c :: cs

/-- `UploadService.isValidFileType` (upload.service.ts lines 408-412):
the lower-cased extension (from the last dot) must be `.tsv` or `.txt`.
`toLowerCase` lower-cases character by character (`Char.toLower` over
the name's characters), and since it maps positions one-to-one, taking
the suffix of the lower-cased name equals lower-casing the suffix the
source takes. -/
def isValidFileType (file : File) : Bool :=
  let validTypes := [".tsv", ".txt"]
  let fileExtension := String.mk (suffixFromLastDot (file.name.data.map Char.toLower))
  validTypes.contains fileExtension

/-- `UploadService.isValidFileSize` (upload.service.ts lines 417-420).
The TypeScript default for `maxSizeMB` is 50; callers relying on the
default pass 50 here. -/
def isValidFileSize (file : File) (maxSizeMB : Nat) : Bool :=
  let maxSizeBytes := maxSizeMB * 1024 * 1024
  decide (file.size ≤ maxSizeBytes)

/-- `errorSummary` record of an upload status entry. -/
structure ErrorSummary where
  totalErrors : Nat
  validationErrors : Nat
  skippedRows : Nat
  deriving Repr, DecidableEq

/-- One value of the `UploadStatus` mapping of upload.service.ts.  The
TypeScript field `exists` is spelled `exists'` (Lean keyword). -/
structure UploadStatusEntry where
  exists' : Bool
  count : Nat
  processing : Option Bool := none
  failed : Option Bool := none
  progressPercentage : Option Int := none
  progressMessage : Option String := none
  errorSummary : Option ErrorSummary := none
  taskId : Option Nat := none
  deriving Repr, DecidableEq

/-- The `UploadStatus` snapshot: a JS object mapping file-type keys to
entries (absent keys are `none`). -/
abbrev UploadStatus := String → Option UploadStatusEntry

/-- JavaScript `statusData[key]?.exists` under boolean coercion
(`undefined` is falsy). -/
def entryExists (statusData : UploadStatus) (key : String) : Bool :=
  match statusData key with
  | some e => e.exists'
  | none => false

/-- Result record of the dependency checker. -/
structure DependencyCheck where
  enabled : Bool
  message : String
  deriving Repr, DecidableEq

/-- `UploadService.checkUploadDependencies` (upload.service.ts lines
462-494). -/
def checkUploadDependencies (fileType : String) (statusData : UploadStatus) :
    DependencyCheck :=
  if fileType = "styles" ∨ fileType = "stores" then
    { enabled := true, message := "" }
  else if fileType = "skus" then
    if ¬ entryExists statusData ("styles") then
      { enabled := false, message := "Upload styles first (styles → skus → sales)" }
    else
      { enabled := true, message := "" }
  else if fileType = "sales" then
    let missingDeps :=
      (if ¬ entryExists statusData ("styles") then ["styles"] else []) ++
      (if ¬ entryExists statusData ("skus") then ["skus"] else []) ++
      (if ¬ entryExists statusData ("stores") then ["stores"] else [])
    if missingDeps.length > 0 then
      { enabled := false,
        message := "Upload " ++ String.intercalate (", ") missingDeps ++ " first" }
    else
      { enabled := true, message := "" }
  else
    { enabled := true, message := "" }

/-- Local status tag of the `UploadFile` view-model in
upload.component.ts. -/
inductive FileStatus where
  | pending | processing | success | error | blocked
  deriving Repr, DecidableEq

/-- The `UploadFile` view-model of upload.component.ts (display-only
fields `displayName`/`description` omitted). -/
structure UploadFile where
  id : String
  status : FileStatus
  count : Option Nat := none
  progress : Option Int := none
  progressMessage : Option String := none
  errorMessage : Option String := none
  dependencyMessage : Option String := none
  taskId : Option Nat := none
  canUpload : Bool
  hasValidationReport : Option Bool := none
  deriving Repr, DecidableEq

/-- Snapshot phase of the `forEach` body in
`UploadComponent.updateUploadFilesStatus` (upload.component.ts lines
115-147): derive the local status from the snapshot entry, keeping a
previous `error` status sticky when the entry reports nothing. -/
def applyStatusSnapshot (file : UploadFile) (statusData : UploadStatus) :
    UploadFile :=
  match statusData file.id with
    | some st =>
      if st.processing.getD false then
        { file with
          status := .processing,
          progress := some (st.progressPercentage.getD 0),
          progressMessage := some (jsOrString st.progressMessage ("Processing your file...")),
          taskId := st.taskId }
      else if st.failed.getD false then
        { file with
          status := .error,
          errorMessage := some (match st.errorSummary with
            | some es => "Upload failed: " ++ toString es.totalErrors ++ " errors"
            | none => "Upload failed due to error"),
          taskId := st.taskId,
          hasValidationReport := st.errorSummary.map (fun (es : ErrorSummary) => decide (es.totalErrors > 0)) }
      else if st.exists' then
        { file with status := .success, count := some st.count }
      else if file.status ≠ .error then { file with status := .pending } else file
    | none =>
      if file.status ≠ .error then { file with status := .pending } else file

/-- Dependency phase of the `forEach` body (upload.component.ts lines
148-154): `canUpload` is set from the checker and a disabled check
overrides the status to `blocked`. -/
def updateUploadFileStatus (file : UploadFile) (statusData : UploadStatus) :
    UploadFile :=
  let f1 := applyStatusSnapshot file statusData
  let dependencyCheck := checkUploadDependencies file.id statusData
  let f2 := { f1 with canUpload := dependencyCheck.enabled }
  if ¬ dependencyCheck.enabled then
    { f2 with status := .blocked, dependencyMessage := some dependencyCheck.message }
  else f2

/-- `UploadComponent.updateUploadFilesStatus` over the whole
`uploadFiles` array. -/
def updateUploadFilesStatus (files : List UploadFile) (statusData : UploadStatus) :
    List UploadFile :=
  files.map (fun f => updateUploadFileStatus f statusData)

/-- What `UploadComponent.uploadFile` (upload.component.ts lines
199-221) does with the current selection: each rejection happens before
`uploadFileAsync` is called, so no network request is made for it. -/
inductive UploadSubmitAction where
  | rejectedNoFile
  | rejectedFileType
  | rejectedFileSize
  | uploadStarted (fileType : String) (file : File)
  deriving Repr, DecidableEq

/-- `UploadComponent.uploadFile`: guard clauses in source order. -/
def uploadFileComponent (selectedFile : Option File) (selectedFileType : String) :
    UploadSubmitAction :=
  match selectedFile with
  | none => .rejectedNoFile
  | some f =>
    if selectedFileType = "" then .rejectedNoFile
    else if ¬ isValidFileType f then .rejectedFileType
    else if ¬ isValidFileSize f 50 then .rejectedFileSize
    else .uploadStarted selectedFileType f

/-- Result of `UploadService.startUploadTask` (upload.service.ts lines
116-131): with no file it fails before any network call; otherwise the
POST is issued and its outcome (`http`) is returned. -/
structure SubmitResult where
  requestSent : Bool
  result : Except String Task
  deriving Repr

/-- `UploadService.startUploadTask`. -/
def startUploadTask (file : Option File) (http : Except String Task) : SubmitResult :=
  match file with
  | none => { requestSent := false, result := .error "No file provided for upload" }
  | some _ => { requestSent := true, result := http }

/-- `UploadService.uploadFileAsync` (upload.service.ts lines 136-154):
submit, fail immediately on an already-FAILED task or submission error,
otherwise poll from poll count 0. -/
def uploadFileAsync (file : Option File) (http : Except String Task)
    (resp : Nat → StatusResult) : PollRun UploadProgressEvent :=
  match (startUploadTask file http).result with
  | .error m =>
    { events := [], statusRequests := [], term := .error { message := m }, termIdx := 0 }
  | .ok task =>
    if task.status = "FAILED" then
      { events := [], statusRequests := [],
        term := .error { message := jsOrString task.errorMessage ("Upload failed") },
        termIdx := 0 }
    else pollUploadTaskStatus resp 0

/-- Body of an Angular `HttpErrorResponse.error` as the services
distinguish it: absent, a client-side `ErrorEvent`, a string body, or a
parsed JSON object (with optional `message` / `error` fields). -/
inductive ErrorBody where
  | empty
  | clientEvent (message : String)
  | text (s : String)
  | jsonBody (message : Option String) (error : Option String)
  deriving Repr, DecidableEq

/-- The parts of `HttpErrorResponse` the services read. -/
structure HttpErrorResponse where
  status : Nat
  message : String
  errorBody : ErrorBody
  deriving Repr, DecidableEq

/-- `UploadService.handleError` (upload.service.ts lines 499-531):
computes the message of the `new Error` it rethrows. -/
def handleError (error : HttpErrorResponse) : String :=
  let base := "Error Code: " ++ toString error.status ++ "\nMessage: " ++ error.message
  match error.errorBody with
  | .clientEvent m => "Error: " ++ m
  | .text s =>
    if s = "" then base
    else if jsIncludes s ("<!doctype") ∨ jsIncludes s ("<html") then
      "Backend server is not running or endpoint not found. Please check if the Spring backend is running on port 9000."
    else s
  | .jsonBody m e =>
    match m with
    | some msg => msg
    | none => match e with
      | some errMsg => errMsg
      | none => base
  | .empty => base

/-- What a subscriber of a service call observes: the payload, the
original `HttpErrorResponse` rethrown untouched (`throw error`), or a
fresh `new Error(message)` (`throwError` in `handleError`). -/
inductive ServiceCallOutcome (A : Type) where
  | value : A → ServiceCallOutcome A
  | raisedHttp : HttpErrorResponse → ServiceCallOutcome A
  | raisedError : String → ServiceCallOutcome A
  deriving Repr

/-- The hard-coded fallback snapshot of
`UploadService.getUploadStatus`. -/
def fallbackUploadStatus : UploadStatus := fun key =>
  if key = "styles" ∨ key = "stores" ∨ key = "skus" ∨ key = "sales" then
    some { exists' := false, count := 0 }
  else none

/-- `UploadService.getUploadStatus` (upload.service.ts lines 81-111):
falls back to `fallbackUploadStatus` only when the error body is a
truthy (non-empty) string; every other error goes to `handleError`,
which rethrows. -/
def getUploadStatus (r : Except HttpErrorResponse UploadStatus) :
    ServiceCallOutcome UploadStatus :=
  match r with
  | .ok status => .value status
  | .error e =>
    match e.errorBody with
    | .text s =>
      if s = "" then .raisedError (handleError e) else .value fallbackUploadStatus
    | _ => .raisedError (handleError e)

/-- `UploadService.getAllTasks`: a read-path call piped through
`handleError`, so it propagates (a transformed) error. -/
def getAllTasks (r : Except HttpErrorResponse (List Task)) :
    ServiceCallOutcome (List Task) :=
  match r with
  | .ok v => .value v
  | .error e => .raisedError (handleError e)

/-- `UploadService.cancelTask`: mutation piped through `handleError`. -/
def cancelTask (r : Except HttpErrorResponse Unit) : ServiceCallOutcome Unit :=
  match r with
  | .ok v => .value v
  | .error e => .raisedError (handleError e)

/-- `UploadService.clearAllData`: mutation piped through
`handleError`. -/
def clearAllData (r : Except HttpErrorResponse Unit) : ServiceCallOutcome Unit :=
  match r with
  | .ok v => .value v
  | .error e => .raisedError (handleError e)

namespace TaskService

/-- `TaskStats` from task.service.ts. -/
structure TaskStats where
  total : Nat
  running : Nat
  completed : Nat
  failed : Nat
  cancelled : Nat
  deriving Repr, DecidableEq

/-- `TaskService.getTasks`: read, falls back to `[]` on any error. -/
def getTasks (r : Except HttpErrorResponse (List Task)) :
    ServiceCallOutcome (List Task) :=
  match r with
  | .ok v => .value v
  | .error _ => .value []

/-- `TaskService.getTaskStats`: read, falls back to the zeroed stats
record on any error. -/
def getTaskStats (r : Except HttpErrorResponse TaskStats) :
    ServiceCallOutcome TaskStats :=
  match r with
  | .ok v => .value v
  | .error _ =>
    .value { total := 0, running := 0, completed := 0, failed := 0, cancelled := 0 }

/-- `TaskService.getTasksByStatus`: read, falls back to `[]`. -/
def getTasksByStatus (r : Except HttpErrorResponse (List Task)) :
    ServiceCallOutcome (List Task) :=
  match r with
  | .ok v => .value v
  | .error _ => .value []

/-- `TaskService.cancelTask`: a mutation (POST `/tasks/id/cancel`)
whose `catchError` swallows the failure and returns `of({})` (modelled
as `Unit`). -/
def cancelTask (r : Except HttpErrorResponse Unit) : ServiceCallOutcome Unit :=
  match r with
  | .ok v => .value v
  | .error _ => .value ()

end TaskService

namespace DashboardService

/-- `DashboardData` (dashboard-data.model) restricted to the fields of
the fallback object; numbers are rationals where the source may hold a
percentage. -/
structure DashboardData where
  totalSalesRecords : Nat
  salesDataStatus : String
  totalSkus : Nat
  totalStores : Nat
  totalStyles : Nat
  masterDataStatus : String
  recentUploads : Nat
  uploadSuccessRate : Rat
  recentActivityStatus : String
  activeTasks : Nat
  pendingTasks : Nat
  processingStatus : String
  deriving Repr, DecidableEq

/-- `DashboardService.getFallbackDashboardData`. -/
def getFallbackDashboardData : DashboardData :=
  { totalSalesRecords := 0, salesDataStatus := "No data available",
    totalSkus := 0, totalStores := 0, totalStyles := 0,
    masterDataStatus := "No data available",
    recentUploads := 0, uploadSuccessRate := 0,
    recentActivityStatus := "No recent activity",
    activeTasks := 0, pendingTasks := 0, processingStatus := "System offline" }

/-- `DashboardService.getDashboardMetrics`: read, falls back to the
static offline record. -/
def getDashboardMetrics (r : Except HttpErrorResponse DashboardData) :
    ServiceCallOutcome DashboardData :=
  match r with
  | .ok v => .value v
  | .error _ => .value getFallbackDashboardData

/-- `DashboardService.getNoosResultsSummary`: read, falls back to the
empty mapping (modelled as an association list). -/
def getNoosResultsSummary (r : Except HttpErrorResponse (List (String × Int))) :
    ServiceCallOutcome (List (String × Int)) :=
  match r with
  | .ok v => .value v
  | .error _ => .value []

end DashboardService

namespace AlgorithmService

/-- `AlgoParametersData` as declared next to `AlgorithmService` in
upload.service.ts. -/
structure AlgoParametersData where
  liquidationThreshold : Rat
  bestsellerMultiplier : Rat
  minVolumeThreshold : Rat
  consistencyThreshold : Rat
  algorithmLabel : String
  analysisStartDate : Option String := none
  analysisEndDate : Option String := none
  deriving Repr, DecidableEq

/-- `AlgorithmService.updateCurrentParameters` (upload.service.ts lines
595-602): a mutation (POST `/algo/update`) whose `catchError` swallows
the failure and returns `of(parameters)` — the very parameters the
caller submitted. -/
def updateCurrentParameters (parameters : AlgoParametersData)
    (r : Except HttpErrorResponse AlgoParametersData) :
    ServiceCallOutcome AlgoParametersData :=
  match r with
  | .ok v => .value v
  | .error _ => .value parameters

/-- `AlgorithmService.createParameterSet`: mutation, also swallows the
error and returns the submitted parameters. -/
def createParameterSet (parameters : AlgoParametersData)
    (r : Except HttpErrorResponse AlgoParametersData) :
    ServiceCallOutcome AlgoParametersData :=
  match r with
  | .ok v => .value v
  | .error _ => .value parameters

/-- `AlgorithmService.runNoosAlgorithmAsync`: mutation (POST
`/run/noos/async`) that swallows the error and returns `of({} as Task)`
— an empty object standing in for a `Task`, modelled as `none`. -/
def runNoosAlgorithmAsync (r : Except HttpErrorResponse Task) :
    ServiceCallOutcome (Option Task) :=
  match r with
  | .ok v => .value (some v)
  | .error _ => .value none

/-- `AlgorithmService.getActiveParameterSets`: read, falls back to
`[]`. -/
def getActiveParameterSets (r : Except HttpErrorResponse (List AlgoParametersData)) :
    ServiceCallOutcome (List AlgoParametersData) :=
  match r with
  | .ok v => .value v
  | .error _ => .value []

end AlgorithmService

namespace AlgorithmParametersService

/-- `AlgoParametersData` of algorithm-parameters.service.ts (the backend
DTO). -/
structure AlgoParametersData where
  parameterSetName : String
  isActive : Bool
  lastUpdated : String
  liquidationThreshold : Rat
  bestsellerMultiplier : Rat
  minVolumeThreshold : Rat
  consistencyThreshold : Rat
  analysisStartDate : String
  analysisEndDate : String
  coreDurationMonths : Nat
  bestsellerDurationDays : Nat
  deriving Repr, DecidableEq

/-- `AlgorithmParametersService.getParameterSets`: read, falls back to
`[]`. -/
def getParameterSets (r : Except HttpErrorResponse (List AlgoParametersData)) :
    ServiceCallOutcome (List AlgoParametersData) :=
  match r with
  | .ok v => .value v
  | .error _ => .value []

/-- `AlgorithmParametersService.saveParameterSet`: mutation whose
`catchError` rethrows the original error untouched (`throw error`).
The `convertToBackendModel` preprocessing (which reads the wall clock)
is outside the modelled error path. -/
def saveParameterSet (r : Except HttpErrorResponse AlgoParametersData) :
    ServiceCallOutcome AlgoParametersData :=
  match r with
  | .ok v => .value v
  | .error e => .raisedHttp e

/-- `AlgorithmParametersService.updateParameterSet`: mutation, rethrows
untouched. -/
def updateParameterSet (r : Except HttpErrorResponse AlgoParametersData) :
    ServiceCallOutcome AlgoParametersData :=
  match r with
  | .ok v => .value v
  | .error e => .raisedHttp e

/-- `AlgorithmParametersService.activateParameterSet`: mutation,
rethrows untouched. -/
def activateParameterSet (r : Except HttpErrorResponse AlgoParametersData) :
    ServiceCallOutcome AlgoParametersData :=
  match r with
  | .ok v => .value v
  | .error e => .raisedHttp e

end AlgorithmParametersService

namespace ReportsService

/-- A download blob (byte list); `new Blob()` is the empty blob. -/
abbrev Blob := List Nat

/-- `ReportsService.downloadNoosAnalyticsReport`: read, falls back to
`of(new Blob())`. -/
def downloadNoosAnalyticsReport (r : Except HttpErrorResponse Blob) :
    ServiceCallOutcome Blob :=
  match r with
  | .ok v => .value v
  | .error _ => .value []

/-- `ReportsService.deleteNoosRun`: a DELETE mutation whose
`catchError` rethrows the original error untouched. -/
def deleteNoosRun (r : Except HttpErrorResponse Unit) : ServiceCallOutcome Unit :=
  match r with
  | .ok v => .value v
  | .error e => .raisedHttp e

end ReportsService

/-- `ThemeMode` of the theme service. -/
inductive ThemeMode where
  | light | dark | system
  deriving Repr, DecidableEq

/-- Internal signal state of `ThemeService`: `_themeMode` and
`_systemPrefersDark`. -/
structure ThemeServiceState where
  themeMode : ThemeMode
  systemPrefersDark : Bool
  deriving Repr, DecidableEq

/-- The `_isDark` computed signal: `system` mode follows the OS
preference, otherwise dark exactly when the mode is `dark`. -/
def isDark (s : ThemeServiceState) : Bool :=
  match s.themeMode with
  | .system => s.systemPrefersDark
  | m => decide (m = .dark)

/-- `ThemeService.setTheme` restricted to the signal state (the DOM and
localStorage effects have no bearing on the signals beyond the mode). -/
def setTheme (s : ThemeServiceState) (mode : ThemeMode) : ThemeServiceState :=
  { s with themeMode := mode }

/-- The handler installed by `ThemeService.setupSystemThemeListener`:
on a media-query change event it only writes `_systemPrefersDark` (and
re-applies the theme to the DOM); it never calls `setTheme`, so
`_themeMode` is untouched. -/
def onSystemThemeChange (s : ThemeServiceState) (eMatches : Bool) : ThemeServiceState :=
  { s with systemPrefersDark := eMatches }

/-! ## One-step unfolding lemmas for the polling loops -/

theorem pollUpload_step_err (resp : Nat → StatusResult) (k : Nat)
    (hk : k < 240) (h : resp k = .err) :
    pollUploadTaskStatus resp k =
      { pollUploadTaskStatus resp (k + 1) with
        statusRequests := k :: (pollUploadTaskStatus resp (k + 1)).statusRequests,
        delays := 2000 :: (pollUploadTaskStatus resp (k + 1)).delays } := by
  conv_lhs => rw [pollUploadTaskStatus]
  rw [dif_neg (by omega)]
  rw [h]

theorem pollUpload_step_completed (resp : Nat → StatusResult) (k : Nat) (t : Task)
    (hk : k < 240) (h : resp k = .ok t) (hs : t.status = "COMPLETED") :
    pollUploadTaskStatus resp k =
      { events := [(k, { progress := 100, task := some t, completed := true })],
        statusRequests := [k], term := .complete, termIdx := k } := by
  conv_lhs => rw [pollUploadTaskStatus]
  rw [dif_neg (by omega)]
  rw [h]
  simp only [hs]
  rfl

theorem pollUpload_step_failed (resp : Nat → StatusResult) (k : Nat) (t : Task)
    (hk : k < 240) (h : resp k = .ok t) (hs : t.status = "FAILED") :
    pollUploadTaskStatus resp k =
      { events := [], statusRequests := [k],
        term := .error { message := jsOrString t.errorMessage ("Upload failed"),
                         task := some t },
        termIdx := k } := by
  conv_lhs => rw [pollUploadTaskStatus]
  rw [dif_neg (by omega)]
  rw [h]
  simp only [hs]
  rfl

theorem pollUpload_step_cancelled (resp : Nat → StatusResult) (k : Nat) (t : Task)
    (hk : k < 240) (h : resp k = .ok t) (hs : t.status = "CANCELLED") :
    pollUploadTaskStatus resp k =
      { events := [], statusRequests := [k],
        term := .error { message := "Upload was cancelled" }, termIdx := k } := by
  conv_lhs => rw [pollUploadTaskStatus]
  rw [dif_neg (by omega)]
  rw [h]
  simp only [hs]
  rfl

theorem pollUpload_step_running (resp : Nat → StatusResult) (k : Nat) (t : Task)
    (hk : k < 240) (h : resp k = .ok t)
    (hs : t.status = "PENDING" ∨ t.status = "RUNNING") :
    pollUploadTaskStatus resp k =
      { pollUploadTaskStatus resp (k + 1) with
        events := (k, { progress := t.progressPercentage.getD 0, task := some t,
                        completed := false }) :: (pollUploadTaskStatus resp (k + 1)).events,
        statusRequests := k :: (pollUploadTaskStatus resp (k + 1)).statusRequests,
        delays := 2000 :: (pollUploadTaskStatus resp (k + 1)).delays } := by
  conv_lhs => rw [pollUploadTaskStatus]
  rw [dif_neg (by omega)]
  rw [h]
  rcases hs with hs | hs <;> simp only [hs] <;> rfl

theorem pollUpload_step_unknown (resp : Nat → StatusResult) (k : Nat) (t : Task)
    (hk : k < 240) (h : resp k = .ok t)
    (h1 : t.status ≠ "COMPLETED") (h2 : t.status ≠ "FAILED")
    (h3 : t.status ≠ "CANCELLED") (h4 : t.status ≠ "PENDING")
    (h5 : t.status ≠ "RUNNING") :
    pollUploadTaskStatus resp k =
      { events := [], statusRequests := [k],
        term := .error { message := "Unknown task status: " ++ t.status },
        termIdx := k } := by
  conv_lhs => rw [pollUploadTaskStatus]
  rw [dif_neg (by omega)]
  rw [h]
  dsimp only
  rw [if_neg h1, if_neg h2, if_neg h3, if_neg (by simp [h4, h5])]

theorem pollDownload_step_err (resp : Nat → StatusResult) (dl : Except String Nat)
    (ft : String) (k : Nat) (hk : k < 120) (h : resp k = .err) :
    pollTaskStatus resp dl ft k =
      { pollTaskStatus resp dl ft (k + 1) with
        statusRequests := k :: (pollTaskStatus resp dl ft (k + 1)).statusRequests,
        delays := 5000 :: (pollTaskStatus resp dl ft (k + 1)).delays } := by
  conv_lhs => rw [pollTaskStatus]
  rw [dif_neg (by omega)]
  rw [h]

theorem pollDownload_step_completed_ok (resp : Nat → StatusResult) (blob : Nat)
    (ft : String) (k : Nat) (t : Task)
    (hk : k < 120) (h : resp k = .ok t) (hs : t.status = "COMPLETED") :
    pollTaskStatus resp (Except.ok blob) ft k =
      { events := [(k, { progress := 100, blob := some blob,
                         filename := some (ft ++ "_data.tsv") })],
        statusRequests := [k], resultRequests := [k],
        term := .complete, termIdx := k } := by
  conv_lhs => rw [pollTaskStatus]
  rw [dif_neg (by omega)]
  rw [h]
  simp only [hs]
  rfl

theorem pollDownload_step_completed_err (resp : Nat → StatusResult) (msg : String)
    (ft : String) (k : Nat) (t : Task)
    (hk : k < 120) (h : resp k = .ok t) (hs : t.status = "COMPLETED") :
    pollTaskStatus resp (Except.error msg) ft k =
      { events := [], statusRequests := [k], resultRequests := [k],
        term := .error { message := msg }, termIdx := k } := by
  conv_lhs => rw [pollTaskStatus]
  rw [dif_neg (by omega)]
  rw [h]
  simp only [hs]
  rfl

theorem pollDownload_step_failed (resp : Nat → StatusResult) (dl : Except String Nat)
    (ft : String) (k : Nat) (t : Task)
    (hk : k < 120) (h : resp k = .ok t) (hs : t.status = "FAILED") :
    pollTaskStatus resp dl ft k =
      { events := [], statusRequests := [k],
        term := .error { message := jsOrString t.errorMessage ("Download failed") },
        termIdx := k } := by
  conv_lhs => rw [pollTaskStatus]
  rw [dif_neg (by omega)]
  rw [h]
  simp only [hs]
  rfl

theorem pollDownload_step_cancelled (resp : Nat → StatusResult) (dl : Except String Nat)
    (ft : String) (k : Nat) (t : Task)
    (hk : k < 120) (h : resp k = .ok t) (hs : t.status = "CANCELLED") :
    pollTaskStatus resp dl ft k =
      { events := [], statusRequests := [k],
        term := .error { message := "Download was cancelled" }, termIdx := k } := by
  conv_lhs => rw [pollTaskStatus]
  rw [dif_neg (by omega)]
  rw [h]
  simp only [hs]
  rfl

theorem pollDownload_step_running (resp : Nat → StatusResult) (dl : Except String Nat)
    (ft : String) (k : Nat) (t : Task)
    (hk : k < 120) (h : resp k = .ok t)
    (hs : t.status = "PENDING" ∨ t.status = "RUNNING") :
    pollTaskStatus resp dl ft k =
      { pollTaskStatus resp dl ft (k + 1) with
        events := (k, { progress := t.progressPercentage.getD 0 })
          :: (pollTaskStatus resp dl ft (k + 1)).events,
        statusRequests := k :: (pollTaskStatus resp dl ft (k + 1)).statusRequests,
        delays := 5000 :: (pollTaskStatus resp dl ft (k + 1)).delays } := by
  conv_lhs => rw [pollTaskStatus]
  rw [dif_neg (by omega)]
  rw [h]
  rcases hs with hs | hs <;> simp only [hs] <;> rfl

theorem pollDownload_step_unknown (resp : Nat → StatusResult) (dl : Except String Nat)
    (ft : String) (k : Nat) (t : Task)
    (hk : k < 120) (h : resp k = .ok t)
    (h1 : t.status ≠ "COMPLETED") (h2 : t.status ≠ "FAILED")
    (h3 : t.status ≠ "CANCELLED") (h4 : t.status ≠ "PENDING")
    (h5 : t.status ≠ "RUNNING") :
    pollTaskStatus resp dl ft k =
      { events := [], statusRequests := [k],
        term := .error { message := "Unknown task status: " ++ t.status },
        termIdx := k } := by
  conv_lhs => rw [pollTaskStatus]
  rw [dif_neg (by omega)]
  rw [h]
  dsimp only
  rw [if_neg h1, if_neg h2, if_neg h3, if_neg (by simp [h4, h5])]

theorem pollUpload_ceiling (resp : Nat → StatusResult) (k : Nat) (hk : k ≥ 240) :
    pollUploadTaskStatus resp k =
      { events := [], statusRequests := [],
        term := .error { message := "Upload timeout - task is taking too long" },
        termIdx := k } := by
  rw [pollUploadTaskStatus]
  rw [dif_pos hk]

theorem pollDownload_ceiling (resp : Nat → StatusResult) (dl : Except String Nat)
    (ft : String) (k : Nat) (hk : k ≥ 120) :
    pollTaskStatus resp dl ft k =
      { events := [], statusRequests := [],
        term := .error { message := "Download timeout - task is taking too long" },
        termIdx := k } := by
  rw [pollTaskStatus]
  rw [dif_pos hk]

/-! ## Global lemmas about whole polling runs -/

theorem pollUpload_timeout_from (resp : Nat → StatusResult) (H : nonTerminal resp) :
    ∀ d k, 240 - k = d → k ≤ 240 →
      (pollUploadTaskStatus resp k).statusRequests = List.range' k (240 - k) ∧
      (pollUploadTaskStatus resp k).term =
        .error { message := "Upload timeout - task is taking too long" } ∧
      (pollUploadTaskStatus resp k).termIdx = 240 := by
  intro d
  induction d with
  | zero =>
    intro k hd hk
    have hk240 : k = 240 := by omega
    subst hk240
    rw [pollUpload_ceiling resp 240 (by omega)]
    simp
  | succ d ih =>
    intro k hd hk
    have hklt : k < 240 := by omega
    have hrange : 240 - k = (240 - (k + 1)) + 1 := by omega
    obtain ⟨ih1, ih2, ih3⟩ := ih (k + 1) (by omega) (by omega)
    cases hresp : resp k with
    | err =>
      rw [pollUpload_step_err resp k hklt hresp]
      refine ⟨?_, ih2, ih3⟩
      show k :: (pollUploadTaskStatus resp (k + 1)).statusRequests = _
      rw [ih1, hrange, List.range'_succ]
    | ok t =>
      have hst := H k t hresp
      rw [pollUpload_step_running resp k t hklt hresp hst]
      refine ⟨?_, ih2, ih3⟩
      show k :: (pollUploadTaskStatus resp (k + 1)).statusRequests = _
      rw [ih1, hrange, List.range'_succ]

theorem pollDownload_timeout_from (resp : Nat → StatusResult)
    (dl : Except String Nat) (ft : String) (H : nonTerminal resp) :
    ∀ d k, 120 - k = d → k ≤ 120 →
      (pollTaskStatus resp dl ft k).statusRequests = List.range' k (120 - k) ∧
      (pollTaskStatus resp dl ft k).term =
        .error { message := "Download timeout - task is taking too long" } ∧
      (pollTaskStatus resp dl ft k).termIdx = 120 := by
  intro d
  induction d with
  | zero =>
    intro k hd hk
    have hk120 : k = 120 := by omega
    subst hk120
    rw [pollDownload_ceiling resp dl ft 120 (by omega)]
    simp
  | succ d ih =>
    intro k hd hk
    have hklt : k < 120 := by omega
    have hrange : 120 - k = (120 - (k + 1)) + 1 := by omega
    obtain ⟨ih1, ih2, ih3⟩ := ih (k + 1) (by omega) (by omega)
    cases hresp : resp k with
    | err =>
      rw [pollDownload_step_err resp dl ft k hklt hresp]
      refine ⟨?_, ih2, ih3⟩
      show k :: (pollTaskStatus resp dl ft (k + 1)).statusRequests = _
      rw [ih1, hrange, List.range'_succ]
    | ok t =>
      have hst := H k t hresp
      rw [pollDownload_step_running resp dl ft k t hklt hresp hst]
      refine ⟨?_, ih2, ih3⟩
      show k :: (pollTaskStatus resp dl ft (k + 1)).statusRequests = _
      rw [ih1, hrange, List.range'_succ]

theorem pollUpload_no_cancel (resp : Nat → StatusResult) :
    ∀ d k, 240 - k = d →
      (pollUploadTaskStatus resp k).cancelRequests = [] ∧
      (pollUploadTaskStatus resp k).resultRequests = [] := by
  intro d
  induction d with
  | zero =>
    intro k hd
    rw [pollUpload_ceiling resp k (by omega)]
    exact ⟨rfl, rfl⟩
  | succ d ih =>
    intro k hd
    have hklt : k < 240 := by omega
    obtain ⟨ih1, ih2⟩ := ih (k + 1) (by omega)
    cases hresp : resp k with
    | err =>
      rw [pollUpload_step_err resp k hklt hresp]
      exact ⟨ih1, ih2⟩
    | ok t =>
      by_cases h1 : t.status = "COMPLETED"
      · rw [pollUpload_step_completed resp k t hklt hresp h1]; exact ⟨rfl, rfl⟩
      by_cases h2 : t.status = "FAILED"
      · rw [pollUpload_step_failed resp k t hklt hresp h2]; exact ⟨rfl, rfl⟩
      by_cases h3 : t.status = "CANCELLED"
      · rw [pollUpload_step_cancelled resp k t hklt hresp h3]; exact ⟨rfl, rfl⟩
      by_cases h4 : t.status = "PENDING" ∨ t.status = "RUNNING"
      · rw [pollUpload_step_running resp k t hklt hresp h4]; exact ⟨ih1, ih2⟩
      · rw [pollUpload_step_unknown resp k t hklt hresp h1 h2 h3
          (fun hc => h4 (Or.inl hc)) (fun hc => h4 (Or.inr hc))]
        exact ⟨rfl, rfl⟩

theorem pollDownload_no_cancel (resp : Nat → StatusResult) (dl : Except String Nat)
    (ft : String) :
    ∀ d k, 120 - k = d → (pollTaskStatus resp dl ft k).cancelRequests = [] := by
  intro d
  induction d with
  | zero =>
    intro k hd
    rw [pollDownload_ceiling resp dl ft k (by omega)]
  | succ d ih =>
    intro k hd
    have hklt : k < 120 := by omega
    have ih1 := ih (k + 1) (by omega)
    cases hresp : resp k with
    | err =>
      rw [pollDownload_step_err resp dl ft k hklt hresp]
      exact ih1
    | ok t =>
      by_cases h1 : t.status = "COMPLETED"
      · cases dl with
        | ok blob => rw [pollDownload_step_completed_ok resp blob ft k t hklt hresp h1]
        | error msg => rw [pollDownload_step_completed_err resp msg ft k t hklt hresp h1]
      · by_cases h2 : t.status = "FAILED"
        · rw [pollDownload_step_failed resp dl ft k t hklt hresp h2]
        by_cases h3 : t.status = "CANCELLED"
        · rw [pollDownload_step_cancelled resp dl ft k t hklt hresp h3]
        by_cases h4 : t.status = "PENDING" ∨ t.status = "RUNNING"
        · rw [pollDownload_step_running resp dl ft k t hklt hresp h4]; exact ih1
        · rw [pollDownload_step_unknown resp dl ft k t hklt hresp h1 h2 h3
            (fun hc => h4 (Or.inl hc)) (fun hc => h4 (Or.inr hc))]

theorem pollUpload_events_spec (resp : Nat → StatusResult) :
    ∀ d k, 240 - k = d →
      ∀ pe ∈ (pollUploadTaskStatus resp k).events,
        (∃ t, resp pe.1 = .ok t ∧ t.status = "COMPLETED" ∧
          pe.2 = { progress := 100, task := some t, completed := true }) ∨
        (∃ t, resp pe.1 = .ok t ∧ (t.status = "PENDING" ∨ t.status = "RUNNING") ∧
          pe.2 = { progress := t.progressPercentage.getD 0, task := some t,
                   completed := false }) := by
  intro d
  induction d with
  | zero =>
    intro k hd pe hpe
    rw [pollUpload_ceiling resp k (by omega)] at hpe
    simp at hpe
  | succ d ih =>
    intro k hd pe hpe
    have hklt : k < 240 := by omega
    have ih1 := ih (k + 1) (by omega)
    cases hresp : resp k with
    | err =>
      rw [pollUpload_step_err resp k hklt hresp] at hpe
      exact ih1 pe hpe
    | ok t =>
      by_cases h1 : t.status = "COMPLETED"
      · rw [pollUpload_step_completed resp k t hklt hresp h1] at hpe
        simp only [List.mem_singleton] at hpe
        subst hpe
        exact Or.inl ⟨t, hresp, h1, rfl⟩
      by_cases h2 : t.status = "FAILED"
      · rw [pollUpload_step_failed resp k t hklt hresp h2] at hpe
        simp at hpe
      by_cases h3 : t.status = "CANCELLED"
      · rw [pollUpload_step_cancelled resp k t hklt hresp h3] at hpe
        simp at hpe
      by_cases h4 : t.status = "PENDING" ∨ t.status = "RUNNING"
      · rw [pollUpload_step_running resp k t hklt hresp h4] at hpe
        rcases List.mem_cons.mp hpe with hpe | hpe
        · subst hpe
          exact Or.inr ⟨t, hresp, h4, rfl⟩
        · exact ih1 pe hpe
      · rw [pollUpload_step_unknown resp k t hklt hresp h1 h2 h3
          (fun hc => h4 (Or.inl hc)) (fun hc => h4 (Or.inr hc))] at hpe
        simp at hpe

theorem pollDownload_events_spec (resp : Nat → StatusResult)
    (dl : Except String Nat) (ft : String) :
    ∀ d k, 120 - k = d →
      ∀ pe ∈ (pollTaskStatus resp dl ft k).events,
        (pe.2.progress = 100 ∧ pe.2.blob.isSome) ∨
        (∃ t, resp pe.1 = .ok t ∧ (t.status = "PENDING" ∨ t.status = "RUNNING") ∧
          pe.2 = { progress := t.progressPercentage.getD 0 }) := by
  intro d
  induction d with
  | zero =>
    intro k hd pe hpe
    rw [pollDownload_ceiling resp dl ft k (by omega)] at hpe
    simp at hpe
  | succ d ih =>
    intro k hd pe hpe
    have hklt : k < 120 := by omega
    have ih1 := ih (k + 1) (by omega)
    cases hresp : resp k with
    | err =>
      rw [pollDownload_step_err resp dl ft k hklt hresp] at hpe
      exact ih1 pe hpe
    | ok t =>
      by_cases h1 : t.status = "COMPLETED"
      · cases dl with
        | ok blob =>
          rw [pollDownload_step_completed_ok resp blob ft k t hklt hresp h1] at hpe
          simp only [List.mem_singleton] at hpe
          subst hpe
          exact Or.inl ⟨rfl, rfl⟩
        | error msg =>
          rw [pollDownload_step_completed_err resp msg ft k t hklt hresp h1] at hpe
          simp at hpe
      by_cases h2 : t.status = "FAILED"
      · rw [pollDownload_step_failed resp dl ft k t hklt hresp h2] at hpe
        simp at hpe
      by_cases h3 : t.status = "CANCELLED"
      · rw [pollDownload_step_cancelled resp dl ft k t hklt hresp h3] at hpe
        simp at hpe
      by_cases h4 : t.status = "PENDING" ∨ t.status = "RUNNING"
      · rw [pollDownload_step_running resp dl ft k t hklt hresp h4] at hpe
        rcases List.mem_cons.mp hpe with hpe | hpe
        · subst hpe
          exact Or.inr ⟨t, hresp, h4, rfl⟩
        · exact ih1 pe hpe
      · rw [pollDownload_step_unknown resp dl ft k t hklt hresp h1 h2 h3
          (fun hc => h4 (Or.inl hc)) (fun hc => h4 (Or.inr hc))] at hpe
        simp at hpe

/-! ## Concrete fixtures used in witnesses and counterexamples -/

/-- A RUNNING task reporting 42 %. -/
def taskRunning : Task :=
  { id := 1, taskType := "FILE_UPLOAD_STYLES", status := "RUNNING",
    errorMessage := none, progressMessage := none, progressPercentage := some 42 }

/-- The same task once COMPLETED. -/
def taskCompleted : Task :=
  { taskRunning with status := "COMPLETED", progressPercentage := some 100 }

/-- A status endpoint that always answers RUNNING. -/
def respAlwaysRunning : Nat → StatusResult := fun _ => .ok taskRunning

/-- A status endpoint whose every request fails. -/
def respAlwaysErr : Nat → StatusResult := fun _ => .err

/-- A status endpoint answering RUNNING for the first 3 polls, then
COMPLETED. -/
def respThreeRunningThenCompleted : Nat → StatusResult := fun n =>
  if n < 3 then .ok taskRunning else .ok taskCompleted

/-- A RUNNING task whose reported percentage is 150. -/
def task150 : Task :=
  { id := 3, taskType := "FILE_UPLOAD_STYLES", status := "RUNNING",
    errorMessage := none, progressMessage := none, progressPercentage := some 150 }

/-- 150 % on the first poll, COMPLETED on the second. -/
def resp150 : Nat → StatusResult := fun n =>
  if n = 0 then .ok task150 else .ok taskCompleted

/-- A FAILED download task carrying the error message `boom`. -/
def taskFailedDownload : Task :=
  { id := 2, taskType := "FILE_DOWNLOAD_STYLES", status := "FAILED",
    errorMessage := some "boom", progressMessage := none, progressPercentage := none }

/-- A status endpoint that always answers with the FAILED task. -/
def respFailedDownload : Nat → StatusResult := fun _ => .ok taskFailedDownload

theorem respAlwaysRunning_nonTerminal : nonTerminal respAlwaysRunning := by
  intro n t ht
  injection ht with h
  subst h
  exact Or.inr rfl

/-- A simulated 500 response with a JSON error body. -/
def e500 : HttpErrorResponse :=
  { status := 500, message := "Http failure response",
    errorBody := .jsonBody (some "Internal Server Error") none }

/-- Concrete parameters submitted to the algorithm service. -/
def pCex : AlgorithmService.AlgoParametersData :=
  { liquidationThreshold := 1/2, bestsellerMultiplier := 2,
    minVolumeThreshold := 10, consistencyThreshold := 7/10,
    algorithmLabel := "Default" }

/-- The empty status snapshot: no file type has been uploaded. -/
def snapNone : UploadStatus := fun _ => none

/-! ## Helper lemmas for the upload component view-model -/

theorem applyStatusSnapshot_status_ne_blocked (f : UploadFile) (snap : UploadStatus) :
    (applyStatusSnapshot f snap).status ≠ FileStatus.blocked := by
  unfold applyStatusSnapshot
  split
  · split
    · simp
    · split
      · simp
      · split
        · simp
        · split
          · simp
          · simp_all
  · split
    · simp
    · simp_all

theorem updateUploadFileStatus_canUpload (f : UploadFile) (snap : UploadStatus) :
    (updateUploadFileStatus f snap).canUpload =
      (checkUploadDependencies f.id snap).enabled := by
  simp only [updateUploadFileStatus]
  split <;> rfl

theorem updateUploadFileStatus_blocked_iff (f : UploadFile) (snap : UploadStatus) :
    ((updateUploadFileStatus f snap).status = FileStatus.blocked ↔
      (checkUploadDependencies f.id snap).enabled = false) := by
  have hne := applyStatusSnapshot_status_ne_blocked f snap
  simp only [updateUploadFileStatus]
  split
  case isTrue h =>
    constructor
    · intro _
      simpa using h
    · intro _
      rfl
  case isFalse h =>
    rw [not_not] at h
    constructor
    · intro hb
      exact absurd hb hne
    · intro hf
      rw [h] at hf
      exact absurd hf (by simp)

/-! ## Claim theorems -/

/-- C1: a status-poll sequence that never reaches a terminal status
makes the upload loop fail with the timeout error after exactly 240
status requests (at poll counts 0..239, never beyond) and the download
loop after exactly 120 (poll counts 0..119); each loop terminates at its
ceiling, so no polling continues after the timeout error. -/
theorem polling_timeout_at_ceiling (resp : Nat → StatusResult)
    (dl : Except String Nat) (ft : String) (H : nonTerminal resp) :
    (pollUploadTaskStatus resp 0).statusRequests = List.range 240 ∧
    (pollUploadTaskStatus resp 0).statusRequests.length = 240 ∧
    (∀ i ∈ (pollUploadTaskStatus resp 0).statusRequests, i < 240) ∧
    (pollUploadTaskStatus resp 0).term =
      .error { message := "Upload timeout - task is taking too long" } ∧
    (pollUploadTaskStatus resp 0).termIdx = 240 ∧
    (pollTaskStatus resp dl ft 0).statusRequests = List.range 120 ∧
    (pollTaskStatus resp dl ft 0).statusRequests.length = 120 ∧
    (∀ i ∈ (pollTaskStatus resp dl ft 0).statusRequests, i < 120) ∧
    (pollTaskStatus resp dl ft 0).term =
      .error { message := "Download timeout - task is taking too long" } ∧
    (pollTaskStatus resp dl ft 0).termIdx = 120 := by
  obtain ⟨h1, h2, h3⟩ := pollUpload_timeout_from resp H 240 0 rfl (by omega)
  obtain ⟨g1, g2, g3⟩ := pollDownload_timeout_from resp dl ft H 120 0 rfl (by omega)
  refine ⟨?_, ?_, ?_, h2, h3, ?_, ?_, ?_, g2, g3⟩
  · rw [h1, List.range_eq_range']
  · rw [h1, List.length_range']
  · intro i hi
    rw [h1] at hi
    have := List.mem_range'_1.mp hi
    omega
  · rw [g1, List.range_eq_range']
  · rw [g1, List.length_range']
  · intro i hi
    rw [g1] at hi
    have := List.mem_range'_1.mp hi
    omega

theorem polling_timeout_at_ceiling_witness :
    (pollUploadTaskStatus respAlwaysRunning 0).statusRequests.length = 240 ∧
    (pollUploadTaskStatus respAlwaysRunning 0).term =
      Termination.error { message := "Upload timeout - task is taking too long" } ∧
    (pollTaskStatus respAlwaysRunning (Except.ok 7) "styles" 0).statusRequests.length = 120 ∧
    (pollTaskStatus respAlwaysRunning (Except.ok 7) "styles" 0).term =
      Termination.error { message := "Download timeout - task is taking too long" } := by
  have h := polling_timeout_at_ceiling respAlwaysRunning (Except.ok 7) ("styles")
    respAlwaysRunning_nonTerminal
  exact ⟨h.2.1, h.2.2.2.1, h.2.2.2.2.2.2.1, h.2.2.2.2.2.2.2.2.1⟩

/-- C2 counterexample: the download polling loop's FAILED branch builds
`new Error(task.errorMessage || 'Download failed')` without attaching
the task object, so with a FAILED task carrying message `boom` the
sequence fails with an error whose `task` property is absent — the
claim's "with the task object attached to the error" fails on the
download variant. -/
theorem download_failed_error_has_no_task :
    (pollTaskStatus respFailedDownload (Except.ok 7) "styles" 0).term =
      Termination.error { message := "boom", task := none } ∧
    (∀ t : Task,
      (pollTaskStatus respFailedDownload (Except.ok 7) "styles" 0).term ≠
        Termination.error { message := "boom", task := some t }) := by
  have h := pollDownload_step_failed respFailedDownload (Except.ok 7) ("styles") 0
    taskFailedDownload (by omega) rfl rfl
  constructor
  · rw [h]
    rfl
  · intro t
    rw [h]
    simp [jsOrString, taskFailedDownload]

/-- C2 (amended): per-status dispatch of the two polling loops.  On each
poll below the ceiling: COMPLETED completes the upload sequence with a
100 % event carrying the task, and completes the download sequence with
a 100 % event carrying the fetched blob and filename (no task); FAILED
fails the sequence — the upload variant attaches the task object to the
error while the download variant carries only the message; CANCELLED
fails with a cancellation message; PENDING/RUNNING emits the task's
current percentage (0 when absent) and schedules another poll; any other
status fails with an unknown-status error.  Concretely, 3 RUNNING
responses followed by COMPLETED yield exactly 3 progress events, then
one completion event, with no status request after poll count 3. -/
theorem poll_status_dispatch (resp : Nat → StatusResult) (dl : Except String Nat)
    (ft : String) (k : Nat) (t : Task) (blob : Nat) :
    (k < 240 → resp k = .ok t →
      ((t.status = "COMPLETED" → pollUploadTaskStatus resp k =
        { events := [(k, { progress := 100, task := some t, completed := true })],
          statusRequests := [k], term := .complete, termIdx := k }) ∧
      (t.status = "FAILED" → pollUploadTaskStatus resp k =
        { events := [], statusRequests := [k],
          term := .error { message := jsOrString t.errorMessage ("Upload failed"),
                           task := some t },
          termIdx := k }) ∧
      (t.status = "CANCELLED" → pollUploadTaskStatus resp k =
        { events := [], statusRequests := [k],
          term := .error { message := "Upload was cancelled" }, termIdx := k }) ∧
      ((t.status = "PENDING" ∨ t.status = "RUNNING") → pollUploadTaskStatus resp k =
        { pollUploadTaskStatus resp (k + 1) with
          events := (k, { progress := t.progressPercentage.getD 0, task := some t,
                          completed := false })
            :: (pollUploadTaskStatus resp (k + 1)).events,
          statusRequests := k :: (pollUploadTaskStatus resp (k + 1)).statusRequests,
          delays := 2000 :: (pollUploadTaskStatus resp (k + 1)).delays }) ∧
      (t.status ≠ "COMPLETED" → t.status ≠ "FAILED" → t.status ≠ "CANCELLED" →
        t.status ≠ "PENDING" → t.status ≠ "RUNNING" → pollUploadTaskStatus resp k =
        { events := [], statusRequests := [k],
          term := .error { message := "Unknown task status: " ++ t.status },
          termIdx := k }))) ∧
    (k < 120 → resp k = .ok t →
      ((t.status = "COMPLETED" → pollTaskStatus resp (Except.ok blob) ft k =
        { events := [(k, { progress := 100, blob := some blob,
                           filename := some (ft ++ "_data.tsv") })],
          statusRequests := [k], resultRequests := [k],
          term := .complete, termIdx := k }) ∧
      (t.status = "FAILED" → pollTaskStatus resp dl ft k =
        { events := [], statusRequests := [k],
          term := .error { message := jsOrString t.errorMessage ("Download failed") },
          termIdx := k }) ∧
      (t.status = "CANCELLED" → pollTaskStatus resp dl ft k =
        { events := [], statusRequests := [k],
          term := .error { message := "Download was cancelled" }, termIdx := k }) ∧
      ((t.status = "PENDING" ∨ t.status = "RUNNING") → pollTaskStatus resp dl ft k =
        { pollTaskStatus resp dl ft (k + 1) with
          events := (k, { progress := t.progressPercentage.getD 0 })
            :: (pollTaskStatus resp dl ft (k + 1)).events,
          statusRequests := k :: (pollTaskStatus resp dl ft (k + 1)).statusRequests,
          delays := 5000 :: (pollTaskStatus resp dl ft (k + 1)).delays }) ∧
      (t.status ≠ "COMPLETED" → t.status ≠ "FAILED" → t.status ≠ "CANCELLED" →
        t.status ≠ "PENDING" → t.status ≠ "RUNNING" → pollTaskStatus resp dl ft k =
        { events := [], statusRequests := [k],
          term := .error { message := "Unknown task status: " ++ t.status },
          termIdx := k }))) ∧
    pollUploadTaskStatus respThreeRunningThenCompleted 0 =
      { events := [(0, { progress := 42, task := some taskRunning, completed := false }),
                   (1, { progress := 42, task := some taskRunning, completed := false }),
                   (2, { progress := 42, task := some taskRunning, completed := false }),
                   (3, { progress := 100, task := some taskCompleted, completed := true })],
        statusRequests := [0, 1, 2, 3], delays := [2000, 2000, 2000],
        term := .complete, termIdx := 3 } := by
  refine ⟨?_, ?_, ?_⟩
  · intro hk hr
    exact ⟨fun hs => pollUpload_step_completed resp k t hk hr hs,
           fun hs => pollUpload_step_failed resp k t hk hr hs,
           fun hs => pollUpload_step_cancelled resp k t hk hr hs,
           fun hs => pollUpload_step_running resp k t hk hr hs,
           fun h1 h2 h3 h4 h5 => pollUpload_step_unknown resp k t hk hr h1 h2 h3 h4 h5⟩
  · intro hk hr
    exact ⟨fun hs => pollDownload_step_completed_ok resp blob ft k t hk hr hs,
           fun hs => pollDownload_step_failed resp dl ft k t hk hr hs,
           fun hs => pollDownload_step_cancelled resp dl ft k t hk hr hs,
           fun hs => pollDownload_step_running resp dl ft k t hk hr hs,
           fun h1 h2 h3 h4 h5 => pollDownload_step_unknown resp dl ft k t hk hr h1 h2 h3 h4 h5⟩
  · rw [pollUpload_step_running respThreeRunningThenCompleted 0 taskRunning
          (by omega) rfl (Or.inr rfl),
        pollUpload_step_running respThreeRunningThenCompleted 1 taskRunning
          (by omega) rfl (Or.inr rfl),
        pollUpload_step_running respThreeRunningThenCompleted 2 taskRunning
          (by omega) rfl (Or.inr rfl),
        pollUpload_step_completed respThreeRunningThenCompleted 3 taskCompleted
          (by omega) rfl rfl]
    rfl

theorem poll_status_dispatch_witness :
    pollUploadTaskStatus respThreeRunningThenCompleted 3 =
      { events := [(3, { progress := 100, task := some taskCompleted, completed := true })],
        statusRequests := [3], term := Termination.complete, termIdx := 3 } :=
  ((poll_status_dispatch respThreeRunningThenCompleted (Except.ok 7) "styles" 3
    taskCompleted 7).1 (by omega) rfl).1 rfl

/-- C3: the dependency checker enables `styles` and `stores` on every
snapshot; `skus` exactly when `styles` exists (otherwise disabled with
the upload-order message); `sales` exactly when `styles`, `skus` and
`stores` all exist, otherwise disabled with a message listing every
missing prerequisite comma-joined — with none present it lists all
three. -/
theorem checkDependencies_spec (snap : UploadStatus) :
    checkUploadDependencies ("styles") snap = { enabled := true, message := "" } ∧
    checkUploadDependencies ("stores") snap = { enabled := true, message := "" } ∧
    checkUploadDependencies ("skus") snap =
      (if entryExists snap ("styles") then { enabled := true, message := "" }
       else { enabled := false,
              message := "Upload styles first (styles → skus → sales)" }) ∧
    ((checkUploadDependencies ("sales") snap).enabled = true ↔
      (entryExists snap ("styles") = true ∧ entryExists snap ("skus") = true ∧
       entryExists snap ("stores") = true)) ∧
    (¬(entryExists snap ("styles") = true ∧ entryExists snap ("skus") = true ∧
       entryExists snap ("stores") = true) →
      checkUploadDependencies ("sales") snap =
        { enabled := false,
          message := "Upload " ++ String.intercalate (", ")
            ((if entryExists snap ("styles") then [] else ["styles"]) ++
             (if entryExists snap ("skus") then [] else ["skus"]) ++
             (if entryExists snap ("stores") then [] else ["stores"])) ++ " first" }) ∧
    checkUploadDependencies ("sales") snapNone =
      { enabled := false, message := "Upload styles, skus, stores first" } := by
  refine ⟨by simp [checkUploadDependencies], by simp [checkUploadDependencies],
          ?_, ?_, ?_, by decide⟩
  · cases h : entryExists snap ("styles") <;>
      simp [checkUploadDependencies, h]
  · cases hs : entryExists snap ("styles") <;>
      cases hk : entryExists snap ("skus") <;>
      cases ht : entryExists snap ("stores") <;>
      simp [checkUploadDependencies, hs, hk, ht]
  · intro hmiss
    cases hs : entryExists snap ("styles") <;>
      cases hk : entryExists snap ("skus") <;>
      cases ht : entryExists snap ("stores") <;>
      simp_all [checkUploadDependencies]

theorem checkDependencies_spec_witness :
    checkUploadDependencies ("sales") snapNone =
      { enabled := false,
        message := "Upload " ++ String.intercalate (", ")
          ((if entryExists snapNone ("styles") then [] else ["styles"]) ++
           (if entryExists snapNone ("skus") then [] else ["skus"]) ++
           (if entryExists snapNone ("stores") then [] else ["stores"])) ++ " first" } :=
  (checkDependencies_spec snapNone).2.2.2.2.1 (by decide)

/-- C4 counterexample: `AlgorithmService.updateCurrentParameters` is a
mutation (POST `/algo/update`), yet on a simulated 500 response it
swallows the error and returns the submitted parameters instead of
propagating; and `UploadService.getUploadStatus` is a read-path call,
yet on a 500 response with a JSON error body it raises a transformed
error instead of returning its fallback. -/
theorem mutation_swallows_read_raises :
    AlgorithmService.updateCurrentParameters pCex (Except.error e500) =
      ServiceCallOutcome.value pCex ∧
    getUploadStatus (Except.error e500) =
      ServiceCallOutcome.raisedError "Internal Server Error" := by
  exact ⟨rfl, rfl⟩

/-- C4 (amended): error policy per service call.  `getUploadStatus`
falls back only for a truthy string error body and otherwise raises the
transformed `handleError` message; the other `UploadService` calls
(reads and mutations alike) raise the transformed message; the task,
dashboard, reports and parameter services return static fallbacks on
read errors; the mutations of `AlgorithmParametersService` and
`ReportsService.deleteNoosRun` rethrow the original error untouched,
while `AlgorithmService`'s mutations and `TaskService.cancelTask`
swallow errors into fallback values. -/
theorem read_write_error_policy (e : HttpErrorResponse)
    (p : AlgorithmService.AlgoParametersData) :
    (∀ s, s ≠ "" →
      getUploadStatus (Except.error ⟨e.status, e.message, ErrorBody.text s⟩) =
        ServiceCallOutcome.value fallbackUploadStatus) ∧
    (∀ m oe,
      getUploadStatus (Except.error ⟨e.status, e.message, ErrorBody.jsonBody m oe⟩) =
        ServiceCallOutcome.raisedError
          (handleError ⟨e.status, e.message, ErrorBody.jsonBody m oe⟩)) ∧
    getAllTasks (Except.error e) = ServiceCallOutcome.raisedError (handleError e) ∧
    TaskService.getTasks (Except.error e) = ServiceCallOutcome.value [] ∧
    TaskService.getTaskStats (Except.error e) =
      ServiceCallOutcome.value
        { total := 0, running := 0, completed := 0, failed := 0, cancelled := 0 } ∧
    TaskService.getTasksByStatus (Except.error e) = ServiceCallOutcome.value [] ∧
    DashboardService.getDashboardMetrics (Except.error e) =
      ServiceCallOutcome.value DashboardService.getFallbackDashboardData ∧
    DashboardService.getNoosResultsSummary (Except.error e) =
      ServiceCallOutcome.value [] ∧
    AlgorithmParametersService.getParameterSets (Except.error e) =
      ServiceCallOutcome.value [] ∧
    AlgorithmService.getActiveParameterSets (Except.error e) =
      ServiceCallOutcome.value [] ∧
    ReportsService.downloadNoosAnalyticsReport (Except.error e) =
      ServiceCallOutcome.value [] ∧
    AlgorithmService.updateCurrentParameters p (Except.error e) =
      ServiceCallOutcome.value p ∧
    AlgorithmService.createParameterSet p (Except.error e) =
      ServiceCallOutcome.value p ∧
    AlgorithmService.runNoosAlgorithmAsync (Except.error e) =
      ServiceCallOutcome.value none ∧
    TaskService.cancelTask (Except.error e) = ServiceCallOutcome.value () ∧
    AlgorithmParametersService.saveParameterSet (Except.error e) =
      ServiceCallOutcome.raisedHttp e ∧
    AlgorithmParametersService.updateParameterSet (Except.error e) =
      ServiceCallOutcome.raisedHttp e ∧
    AlgorithmParametersService.activateParameterSet (Except.error e) =
      ServiceCallOutcome.raisedHttp e ∧
    ReportsService.deleteNoosRun (Except.error e) =
      ServiceCallOutcome.raisedHttp e ∧
    cancelTask (Except.error e) = ServiceCallOutcome.raisedError (handleError e) ∧
    clearAllData (Except.error e) = ServiceCallOutcome.raisedError (handleError e) := by
  refine ⟨?_, fun m oe => rfl, rfl, rfl, rfl, rfl, rfl, rfl, rfl, rfl, rfl, rfl,
          rfl, rfl, rfl, rfl, rfl, rfl, rfl, rfl, rfl⟩
  intro s hs
  simp [getUploadStatus, hs]

theorem read_write_error_policy_witness :
    getUploadStatus
      (Except.error ⟨500, "Http failure response",
        ErrorBody.text ("<html>backend down</html>")⟩) =
      ServiceCallOutcome.value fallbackUploadStatus :=
  (read_write_error_policy e500 pCex).1 ("<html>backend down</html>") (by decide)

/-- C5: the component's upload handler rejects before any network call
when no file is selected, when the extension is not `.tsv`/`.txt`, or
when the file exceeds the 50 MiB default ceiling — only a file passing
both checks reaches `uploadFileAsync`; the service's `startUploadTask`
likewise fails without sending a request when the file is absent.
Concretely `data.csv` fails type validation, a 51 MiB file fails size
validation, and a 10 MiB `data.tsv` passes both. -/
theorem upload_local_validation (ft : String) (f : File) (http : Except String Task) :
    uploadFileComponent none ft = UploadSubmitAction.rejectedNoFile ∧
    startUploadTask none http =
      { requestSent := false, result := Except.error "No file provided for upload" } ∧
    (isValidFileType f = false → ∀ s g,
      uploadFileComponent (some f) ft ≠ UploadSubmitAction.uploadStarted s g) ∧
    (isValidFileSize f 50 = false → ∀ s g,
      uploadFileComponent (some f) ft ≠ UploadSubmitAction.uploadStarted s g) ∧
    (ft ≠ "" → isValidFileType f = true → isValidFileSize f 50 = true →
      uploadFileComponent (some f) ft = UploadSubmitAction.uploadStarted ft f) ∧
    (∀ n, isValidFileType { name := "data.csv", size := n } = false) ∧
    (∀ nm, isValidFileSize { name := nm, size := 51 * 1024 * 1024 } 50 = false) ∧
    isValidFileType { name := "data.tsv", size := 10 * 1024 * 1024 } = true ∧
    isValidFileSize { name := "data.tsv", size := 10 * 1024 * 1024 } 50 = true := by
  refine ⟨rfl, rfl, ?_, ?_, ?_, fun n => rfl, fun nm => ?_, rfl, by decide⟩
  · intro hv s g hcon
    by_cases hft : ft = ""
    · simp [uploadFileComponent, hft] at hcon
    · simp [uploadFileComponent, hft, hv] at hcon
  · intro hsz s g hcon
    by_cases hft : ft = ""
    · simp [uploadFileComponent, hft] at hcon
    · by_cases hty : isValidFileType f
      · simp [uploadFileComponent, hft, hty, hsz] at hcon
      · simp [uploadFileComponent, hft, hty] at hcon
  · intro h1 h2 h3
    simp [uploadFileComponent, h1, h2, h3]
  · simp [isValidFileSize]

theorem upload_local_validation_witness :
    uploadFileComponent (some { name := "data.csv", size := 100 }) "styles" ≠
      UploadSubmitAction.uploadStarted "styles" { name := "data.csv", size := 100 } :=
  (upload_local_validation "styles" { name := "data.csv", size := 100 }
    (Except.error "unused")).2.2.1 rfl "styles" { name := "data.csv", size := 100 }

/-- C6 counterexample: `uploadFileAsync`'s observable registers no
teardown, so a subscriber that unsubscribes at poll count 0 is delivered
no events, yet — against the claim that no further status-poll requests
are issued — the scheduled `setTimeout` chain still issues 240 status
requests at poll counts at or after the unsubscription. -/
theorem unsubscribe_does_not_stop_polling :
    deliveredEvents (pollUploadTaskStatus respAlwaysRunning 0) 0 = [] ∧
    (statusRequestsOnOrAfter (pollUploadTaskStatus respAlwaysRunning 0) 0).length
      = 240 := by
  have hreq := (pollUpload_timeout_from respAlwaysRunning
    respAlwaysRunning_nonTerminal 240 0 rfl (by omega)).1
  constructor
  · simp [deliveredEvents]
  · have hall : List.filter (fun r => decide (0 ≤ r))
        (List.range' 0 (240 - 0)) = List.range' 0 (240 - 0) :=
      List.filter_eq_self.mpr (by intro a _; simp)
    rw [statusRequestsOnOrAfter, hreq, hall, List.length_range']

/-- C6 (amended): after unsubscribing at poll count `u`, no event is
delivered at or after `u`, and the polling chain never issues a
task-cancellation request; but it does not stop — while the ceiling is
not reached it still issues a status request at or after `u`, and a
never-terminal sequence still runs to the timeout. -/
theorem unsubscribe_semantics (resp : Nat → StatusResult) (dl : Except String Nat)
    (ft : String) (u : Nat) (H : nonTerminal resp) :
    (∀ pe ∈ deliveredEvents (pollUploadTaskStatus resp 0) u, pe.1 < u) ∧
    (∀ pe ∈ deliveredEvents (pollTaskStatus resp dl ft 0) u, pe.1 < u) ∧
    (pollUploadTaskStatus resp 0).cancelRequests = [] ∧
    (pollTaskStatus resp dl ft 0).cancelRequests = [] ∧
    (u < 240 → u ∈ statusRequestsOnOrAfter (pollUploadTaskStatus resp 0) u) ∧
    (u < 120 → u ∈ statusRequestsOnOrAfter (pollTaskStatus resp dl ft 0) u) ∧
    (pollUploadTaskStatus resp 0).term =
      .error { message := "Upload timeout - task is taking too long" } := by
  refine ⟨?_, ?_, (pollUpload_no_cancel resp 240 0 rfl).1,
          pollDownload_no_cancel resp dl ft 120 0 rfl, ?_, ?_,
          (pollUpload_timeout_from resp H 240 0 rfl (by omega)).2.1⟩
  · intro pe hpe
    have h := List.mem_filter.mp hpe
    simpa using h.2
  · intro pe hpe
    have h := List.mem_filter.mp hpe
    simpa using h.2
  · intro hu
    have hreq := (pollUpload_timeout_from resp H 240 0 rfl (by omega)).1
    rw [statusRequestsOnOrAfter, hreq]
    refine List.mem_filter.mpr ⟨?_, by simp⟩
    rw [List.mem_range'_1]
    omega
  · intro hu
    have hreq := (pollDownload_timeout_from resp dl ft H 120 0 rfl (by omega)).1
    rw [statusRequestsOnOrAfter, hreq]
    refine List.mem_filter.mpr ⟨?_, by simp⟩
    rw [List.mem_range'_1]
    omega

theorem unsubscribe_semantics_witness :
    (5 : Nat) ∈ statusRequestsOnOrAfter (pollUploadTaskStatus respAlwaysRunning 0) 5 :=
  (unsubscribe_semantics respAlwaysRunning (Except.ok 7) "styles" 5
    respAlwaysRunning_nonTerminal).2.2.2.2.1 (by omega)

/-- C7: an error from an individual status request neither fails the
sequence nor emits an event: the run is that of the next poll count with
one more status request and one more scheduled delay — the same delay
(2000 ms upload, 5000 ms download) as after a successful PENDING/RUNNING
poll; a sequence whose every request errors still ends in the timeout at
the ceiling (240 respectively 120 requests). -/
theorem transient_error_retry (resp : Nat → StatusResult) (dl : Except String Nat)
    (ft : String) (k : Nat) :
    (k < 240 → resp k = .err →
      pollUploadTaskStatus resp k =
        { pollUploadTaskStatus resp (k + 1) with
          statusRequests := k :: (pollUploadTaskStatus resp (k + 1)).statusRequests,
          delays := 2000 :: (pollUploadTaskStatus resp (k + 1)).delays }) ∧
    (k < 240 → ∀ t, resp k = .ok t → (t.status = "PENDING" ∨ t.status = "RUNNING") →
      (pollUploadTaskStatus resp k).delays =
        2000 :: (pollUploadTaskStatus resp (k + 1)).delays) ∧
    (k < 120 → resp k = .err →
      pollTaskStatus resp dl ft k =
        { pollTaskStatus resp dl ft (k + 1) with
          statusRequests := k :: (pollTaskStatus resp dl ft (k + 1)).statusRequests,
          delays := 5000 :: (pollTaskStatus resp dl ft (k + 1)).delays }) ∧
    (k < 120 → ∀ t, resp k = .ok t → (t.status = "PENDING" ∨ t.status = "RUNNING") →
      (pollTaskStatus resp dl ft k).delays =
        5000 :: (pollTaskStatus resp dl ft (k + 1)).delays) ∧
    ((∀ n, resp n = .err) →
      (pollUploadTaskStatus resp 0).term =
        .error { message := "Upload timeout - task is taking too long" } ∧
      (pollUploadTaskStatus resp 0).statusRequests.length = 240 ∧
      (pollTaskStatus resp dl ft 0).term =
        .error { message := "Download timeout - task is taking too long" } ∧
      (pollTaskStatus resp dl ft 0).statusRequests.length = 120) := by
  refine ⟨fun hk h => pollUpload_step_err resp k hk h, ?_,
          fun hk h => pollDownload_step_err resp dl ft k hk h, ?_, ?_⟩
  · intro hk t hr hs
    rw [pollUpload_step_running resp k t hk hr hs]
  · intro hk t hr hs
    rw [pollDownload_step_running resp dl ft k t hk hr hs]
  · intro hall
    have H : nonTerminal resp := by
      intro n t ht
      rw [hall n] at ht
      exact absurd ht (by simp)
    obtain ⟨h1, h2, _⟩ := pollUpload_timeout_from resp H 240 0 rfl (by omega)
    obtain ⟨g1, g2, _⟩ := pollDownload_timeout_from resp dl ft H 120 0 rfl (by omega)
    exact ⟨h2, by rw [h1, List.length_range'], g2, by rw [g1, List.length_range']⟩

theorem transient_error_retry_witness :
    pollUploadTaskStatus respAlwaysErr 0 =
      { pollUploadTaskStatus respAlwaysErr 1 with
        statusRequests := 0 :: (pollUploadTaskStatus respAlwaysErr 1).statusRequests,
        delays := 2000 :: (pollUploadTaskStatus respAlwaysErr 1).delays } :=
  (transient_error_retry respAlwaysErr (Except.ok 7) "styles" 0).1 (by omega) rfl

/-- C8: after refreshing a view-model entry from a snapshot, the local
status is `blocked` exactly when the dependency checker disables the
file type — for `skus` exactly when `styles` is missing, for `sales`
exactly when one of `styles`/`skus`/`stores` is missing, and never for
`styles` or `stores` — and `canUpload` always equals the checker's
`enabled` flag. -/
theorem blocked_iff_dependencies (f : UploadFile) (snap : UploadStatus) :
    (updateUploadFileStatus f snap).canUpload =
      (checkUploadDependencies f.id snap).enabled ∧
    ((updateUploadFileStatus f snap).status = FileStatus.blocked ↔
      (checkUploadDependencies f.id snap).enabled = false) ∧
    (f.id = "styles" → (updateUploadFileStatus f snap).status ≠ FileStatus.blocked) ∧
    (f.id = "stores" → (updateUploadFileStatus f snap).status ≠ FileStatus.blocked) ∧
    (f.id = "skus" → ((updateUploadFileStatus f snap).status = FileStatus.blocked ↔
      entryExists snap ("styles") = false)) ∧
    (f.id = "sales" → ((updateUploadFileStatus f snap).status = FileStatus.blocked ↔
      ¬(entryExists snap ("styles") = true ∧ entryExists snap ("skus") = true ∧
        entryExists snap ("stores") = true))) := by
  have hcu := updateUploadFileStatus_canUpload f snap
  have hbi := updateUploadFileStatus_blocked_iff f snap
  refine ⟨hcu, hbi, ?_, ?_, ?_, ?_⟩
  · intro hid hcon
    have := hbi.mp hcon
    rw [hid] at this
    simp [checkUploadDependencies] at this
  · intro hid hcon
    have := hbi.mp hcon
    rw [hid] at this
    simp [checkUploadDependencies] at this
  · intro hid
    rw [hbi, hid]
    cases h : entryExists snap ("styles") <;>
      simp [checkUploadDependencies, h]
  · intro hid
    rw [hbi, hid]
    cases hs : entryExists snap ("styles") <;>
      cases hk : entryExists snap ("skus") <;>
      cases ht : entryExists snap ("stores") <;>
      simp [checkUploadDependencies, hs, hk, ht]

theorem blocked_iff_dependencies_witness :
    (updateUploadFileStatus
        { id := "sales", status := FileStatus.pending, canUpload := true }
        snapNone).status = FileStatus.blocked :=
  ((blocked_iff_dependencies
      { id := "sales", status := FileStatus.pending, canUpload := true }
      snapNone).2.2.2.2.2 rfl).mpr (by decide)

/-- C9 counterexample: the polling loop forwards the server-reported
percentage unchecked, so a RUNNING task reporting 150 % makes the upload
sequence emit a progress event of 150, outside 0..100 — the claim's
bound fails for a task object whose percentage exceeds 100. -/
theorem progress_event_exceeds_100 :
    (0, ({ progress := 150, task := some task150, completed := false } :
      UploadProgressEvent)) ∈ (pollUploadTaskStatus resp150 0).events ∧
    ¬((150 : Int) ≤ 100) := by
  constructor
  · rw [pollUpload_step_running resp150 0 task150 (by omega) rfl (Or.inr rfl)]
    exact List.mem_cons_self _ _
  · decide

/-- C9 (amended): provided every task returned by the status endpoint
reports a percentage within 0..100 (a missing percentage reads as 0),
every event of the upload sequence carries a progress within 0..100;
completion events carry exactly 100, a PENDING/RUNNING event for a task
without a percentage carries 0, and the download sequence's events obey
the same bound. -/
theorem progress_events_bounded (resp : Nat → StatusResult) (dl : Except String Nat)
    (ft : String)
    (H : ∀ n t, resp n = .ok t →
      0 ≤ t.progressPercentage.getD 0 ∧ t.progressPercentage.getD 0 ≤ 100) :
    (∀ pe ∈ (pollUploadTaskStatus resp 0).events,
      0 ≤ pe.2.progress ∧ pe.2.progress ≤ 100) ∧
    (∀ pe ∈ (pollUploadTaskStatus resp 0).events, pe.2.completed = true →
      pe.2.progress = 100) ∧
    (∀ pe ∈ (pollUploadTaskStatus resp 0).events, ∀ t, resp pe.1 = .ok t →
      t.progressPercentage = none → pe.2.completed = false → pe.2.progress = 0) ∧
    (∀ pe ∈ (pollTaskStatus resp dl ft 0).events,
      0 ≤ pe.2.progress ∧ pe.2.progress ≤ 100) := by
  refine ⟨?_, ?_, ?_, ?_⟩
  · intro pe hpe
    rcases pollUpload_events_spec resp 240 0 rfl pe hpe with
      ⟨t, _, _, hev⟩ | ⟨t, ht, _, hev⟩
    · rw [hev]
      exact ⟨by norm_num, by norm_num⟩
    · rw [hev]
      exact H pe.1 t ht
  · intro pe hpe hc
    rcases pollUpload_events_spec resp 240 0 rfl pe hpe with
      ⟨t, _, _, hev⟩ | ⟨t, _, _, hev⟩
    · rw [hev]
    · rw [hev] at hc
      simp at hc
  · intro pe hpe t ht hnone hc
    rcases pollUpload_events_spec resp 240 0 rfl pe hpe with
      ⟨t', _, _, hev⟩ | ⟨t', ht', _, hev⟩
    · rw [hev] at hc
      simp at hc
    · rw [ht] at ht'
      injection ht' with h
      subst h
      rw [hev]
      simp [hnone]
  · intro pe hpe
    rcases pollDownload_events_spec resp dl ft 120 0 rfl pe hpe with
      ⟨h100, _⟩ | ⟨t, ht, _, hev⟩
    · rw [h100]
      exact ⟨by norm_num, by norm_num⟩
    · rw [hev]
      exact H pe.1 t ht

theorem progress_events_bounded_witness :
    0 ≤ ((0, ({ progress := 42, task := some taskRunning, completed := false } :
      UploadProgressEvent)) : Nat × UploadProgressEvent).2.progress ∧
    ((0, ({ progress := 42, task := some taskRunning, completed := false } :
      UploadProgressEvent)) : Nat × UploadProgressEvent).2.progress ≤ 100 :=
  (progress_events_bounded respThreeRunningThenCompleted (Except.ok 7) "styles"
    (by
      intro n t ht
      by_cases h3 : n < 3
      · simp only [respThreeRunningThenCompleted, if_pos h3] at ht
        injection ht with h
        subst h
        exact ⟨by decide, by decide⟩
      · simp only [respThreeRunningThenCompleted, if_neg h3] at ht
        injection ht with h
        subst h
        exact ⟨by decide, by decide⟩)).1
    (0, { progress := 42, task := some taskRunning, completed := false })
    (by
      rw [pollUpload_step_running respThreeRunningThenCompleted 0 taskRunning
        (by omega) rfl (Or.inr rfl)]
      exact List.mem_cons_self _ _)

/-- C10: an OS dark-mode change event only rewrites the stored system
preference: in `system` mode the effective dark flag becomes the event's
value without any `setTheme` call (the mode is unchanged), while in
`light`/`dark` mode the flag is unchanged by the event and equals
whether the mode is `dark`. -/
theorem theme_system_change (s : ThemeServiceState) (m : Bool) :
    (onSystemThemeChange s m).themeMode = s.themeMode ∧
    (s.themeMode = ThemeMode.system → isDark (onSystemThemeChange s m) = m) ∧
    (s.themeMode ≠ ThemeMode.system →
      isDark (onSystemThemeChange s m) = isDark s ∧
      isDark (onSystemThemeChange s m) = decide (s.themeMode = ThemeMode.dark)) := by
  obtain ⟨mode, b⟩ := s
  cases mode <;> simp [isDark, onSystemThemeChange]

theorem theme_system_change_witness :
    isDark (onSystemThemeChange ⟨ThemeMode.system, false⟩ true) = true :=
  (theme_system_change ⟨ThemeMode.system, false⟩ true).2.1 rfl


end ToyIris
